import Mathlib

/-!
Verification of the authentication backend of this repository
(register / login / profile / logout handlers, JWT token service,
bearer-token middleware).

The embedding follows the TypeScript source:
* `server/lib/jwt.ts`      → `generateToken`, `verifyToken`
* `server/middleware/auth.ts` → `authenticateToken`
* `server/routes/auth.ts`  → `register`, `login`, `getProfile`, `logout`
* `server/models/User.ts`  (not present in the sources; modelled from the
  spec where needed: schema validation, bcrypt hashing on save,
  `comparePassword`).

Machine-independent conventions: timestamps are seconds as `Nat`;
JSON documents are a small inductive `Json`; JavaScript string
truthiness (`!s` is true for `undefined` and `""`) is modelled with
`Option String` and `present`.
-/

/-- Payload embedded in every token, mirroring `JWTPayload` of
`server/lib/jwt.ts`: `{userId, email, name}`. -/
structure JWTPayload where
  userId : String
  email : String
  name : String
deriving DecidableEq, Repr

/-- Wire form of a JWT as the rest of the system can observe it.
`signed p exp secret` is a structurally well-formed token whose payload is
`p`, whose embedded expiry (seconds) is `exp` and which was signed with
`secret`; `malformed` is any string that does not parse as a JWT. -/
inductive TokenWire where
  | malformed : TokenWire
  | signed : JWTPayload → Nat → String → TokenWire
deriving DecidableEq, Repr

/-- Errors of the external `jsonwebtoken` library as distinguished by its
`verify`: `TokenExpiredError` vs every other failure
(`JsonWebTokenError`: bad signature, malformed structure). -/
inductive JwtLibError where
  | tokenExpired : JwtLibError
  | jsonWebTokenError : JwtLibError
deriving DecidableEq, Repr

/-- The fallback signing secret of `server/lib/jwt.ts`
(`process.env.JWT_SECRET || "your-secret-key-change-in-production"`). -/
def JWT_SECRET : String := "your-secret-key-change-in-production"

/-- The default token lifetime: `JWT_EXPIRE = "7d"`, in seconds. -/
def JWT_EXPIRE_SECONDS : Nat := 7 * 24 * 60 * 60

/-- `jwt.sign(payload, secret, {expiresIn})` of the external library:
embeds the payload and the absolute expiry `now + expiresIn`. -/
def jwtSign (p : JWTPayload) (secret : String) (expiresIn : Nat) (now : Nat) :
    TokenWire :=
  .signed p (now + expiresIn) secret

/-- `jwt.verify(token, secret)` of the external library: throws
`JsonWebTokenError` on a malformed token or a signature made with a
different secret, `TokenExpiredError` once `now` reaches the embedded
expiry, and otherwise returns the payload. -/
def jwtVerifyLib (t : TokenWire) (secret : String) (now : Nat) :
    Except JwtLibError JWTPayload :=
  match t with
  | .malformed => .error .jsonWebTokenError
  | .signed p e s =>
      if s ≠ secret then .error .jsonWebTokenError
      else if e ≤ now then .error .tokenExpired
      else .ok p

/-- A stored user record, mirroring the mongoose `User` document:
`_id`, `email`, `password` (the bcrypt hash is stored under the field
name `password`), `name`, `createdAt`. -/
structure StoredUser where
  id : String
  email : String
  password : String
  name : String
  createdAt : Nat
deriving DecidableEq, Repr

/-- `generateToken` of `server/lib/jwt.ts`: signs
`{userId: user._id, email, name}` with `JWT_SECRET`, expiring in
`JWT_EXPIRE`. -/
def generateToken (u : StoredUser) (now : Nat) : TokenWire :=
  jwtSign { userId := u.id, email := u.email, name := u.name }
    JWT_SECRET JWT_EXPIRE_SECONDS now

/-- `verifyToken` of `server/lib/jwt.ts`: calls `jwt.verify` inside
`try { ... } catch { throw new Error("Invalid token") }` — every library
failure, expiry included, is collapsed to the single error string
`"Invalid token"`. -/
def verifyToken (t : TokenWire) (now : Nat) : Except String JWTPayload :=
  match jwtVerifyLib t JWT_SECRET now with
  | .ok p => .ok p
  | .error _ => .error "Invalid token"

/-- JSON documents, as built by the handlers with `res.json({...})`.
`jtok` holds a token placed in a `token` field; its observable strings
are the payload fields and the secret used for the signature. -/
inductive Json where
  | jstr : String → Json
  | jbool : Bool → Json
  | jnat : Nat → Json
  | jtok : TokenWire → Json
  | jarr : List Json → Json
  | jobj : List (String × Json) → Json

/-- The strings observable in a token: its payload fields and the
secret material the signature was derived from. -/
def tokenStrings : TokenWire → List String
  | .malformed => []
  | .signed p _ s => [p.userId, p.email, p.name, s]

mutual

/-- All strings occurring as values anywhere in a JSON document
(token payloads included). -/
def Json.strings : Json → List String
  | .jstr s => [s]
  | .jbool _ => []
  | .jnat _ => []
  | .jtok t => tokenStrings t
  | .jarr xs => stringsOfList xs
  | .jobj fs => stringsOfFields fs

def stringsOfList : List Json → List String
  | [] => []
  | v :: rest => v.strings ++ stringsOfList rest

def stringsOfFields : List (String × Json) → List String
  | [] => []
  | (_, v) :: rest => v.strings ++ stringsOfFields rest

end

/-- The `{success:false, message}` error envelope every failure response
uses. -/
def errBody (msg : String) : Json :=
  .jobj [("success", .jbool false), ("message", .jstr msg)]

/-- An HTTP response: status code and JSON body. -/
abbrev HttpResp := Nat × Json

/-- The in-memory credential store: the collection of user documents. -/
abbrev Store := List StoredUser

/-- `User.findOne({email})`: first stored user with the given email. -/
def findOneByEmail (st : Store) (e : String) : Option StoredUser :=
  st.find? (fun u => u.email == e)

/-- `User.findById(id)`: first stored user with the given id. -/
def findById (st : Store) (i : String) : Option StoredUser :=
  st.find? (fun u => u.id == i)

/-- JavaScript truthiness of a request-body string field: absent
(`undefined`) and the empty string are falsy. -/
def present : Option String → Bool
  | none => false
  | some s => !s.isEmpty

/-- Request body of `POST /api/auth/register`. -/
structure RegisterReq where
  email : Option String
  password : Option String
  name : Option String

/-- Request body of `POST /api/auth/login`. -/
structure LoginReq where
  email : Option String
  password : Option String

/-- Modelled from the spec: `server/models/User.ts` is not among the
sources. Per §4.1 the schema requires the email to match a valid email
shape; modelled as containing an `@`. -/
def validEmailShape (e : String) : Bool :=
  e.toList.contains '@'

/-- Modelled from the spec: the mongoose schema validation of
`server/models/User.ts` (not among the sources). Per §4.1: email shape,
`name` length ≥ 2, password length ≥ 6; one message per violated field,
surfaced by the handler as a `ValidationError`. -/
def userValidationErrors (email password name : String) : List String :=
  (if validEmailShape email then [] else ["Please enter a valid email"]) ++
  (if 6 ≤ password.length then [] else
    ["Password must be at least 6 characters"]) ++
  (if 2 ≤ name.length then [] else ["Name must be at least 2 characters"])

/-- Success body of `register`: `{success, message, token,
user:{id,email,name}}`. -/
def registerSuccessBody (t : TokenWire) (u : StoredUser) : Json :=
  .jobj [("success", .jbool true),
         ("message", .jstr "User registered successfully"),
         ("token", .jtok t),
         ("user", .jobj [("id", .jstr u.id), ("email", .jstr u.email),
                         ("name", .jstr u.name)])]

/-- Body of the 400 issued when mongoose validation fails:
`{success:false, message:"Validation failed", errors}`. -/
def validationFailedBody (errs : List String) : Json :=
  .jobj [("success", .jbool false), ("message", .jstr "Validation failed"),
         ("errors", .jarr (errs.map .jstr))]

/-- The `register` handler of `server/routes/auth.ts`.
Flow: presence check on `email`/`password`/`name` (JS truthiness) →
`User.findOne({email})` duplicate check → `user.save()` (schema
validation, then bcrypt hashing of the password — both modelled from the
spec since `models/User.ts` is absent; `hash` stands for the salted
one-way function) → `generateToken` → 201.
`newId` models the `_id` Mongo assigns, `now` the clock. Returns the
response and the store after the call. -/
def register (hash : String → String) (st : Store) (req : RegisterReq)
    (newId : String) (now : Nat) : HttpResp × Store :=
  if present req.email && present req.password && present req.name then
    let email := req.email.getD ""
    let password := req.password.getD ""
    let name := req.name.getD ""
    match findOneByEmail st email with
    | some _ => ((400, errBody "User with this email already exists"), st)
    | none =>
        match userValidationErrors email password name with
        | [] =>
            let u : StoredUser :=
              { id := newId, email := email, password := hash password,
                name := name, createdAt := now }
            ((201, registerSuccessBody (generateToken u now) u), st ++ [u])
        | errs => ((400, validationFailedBody errs), st)
  else ((400, errBody "Email, password, and name are required"), st)

/-- Success body of `login`: `{success, message:"Login successful",
token, user:{id,email,name}}`. -/
def loginSuccessBody (t : TokenWire) (u : StoredUser) : Json :=
  .jobj [("success", .jbool true),
         ("message", .jstr "Login successful"),
         ("token", .jtok t),
         ("user", .jobj [("id", .jstr u.id), ("email", .jstr u.email),
                         ("name", .jstr u.name)])]

/-- The `login` handler of `server/routes/auth.ts`.
Flow: presence check on `email`/`password` → `User.findOne({email})`;
missing user and failed `comparePassword` both answer
400 `"Invalid email or password"`; otherwise 200 with a fresh token.
`user.comparePassword` lives in the absent `models/User.ts`; modelled
from the spec §4.1 (`verifyPassword` recomputes the hash comparison):
with the deterministic `hash` model it is `hash candidate == stored`.
`login` never writes the store, so only the response is returned. -/
def login (hash : String → String) (st : Store) (req : LoginReq)
    (now : Nat) : HttpResp :=
  if present req.email && present req.password then
    match findOneByEmail st (req.email.getD "") with
    | none => (400, errBody "Invalid email or password")
    | some u =>
        if hash (req.password.getD "") == u.password then
          (200, loginSuccessBody (generateToken u now) u)
        else (400, errBody "Invalid email or password")
  else (400, errBody "Email and password are required")

/-- Success body of `getProfile`: `{success,
user:{id,email,name,createdAt}}` — no password field; the source query
is `User.findById(...).select("-password")`, modelled by omitting the
field from the projection. -/
def profileBody (u : StoredUser) : Json :=
  .jobj [("success", .jbool true),
         ("user", .jobj [("id", .jstr u.id), ("email", .jstr u.email),
                         ("name", .jstr u.name),
                         ("createdAt", .jnat u.createdAt)])]

/-- The `getProfile` handler of `server/routes/auth.ts`: looks up
`req.user?.userId` (the claim attached by the middleware), 404 when the
user is gone, otherwise 200 with the public projection. -/
def getProfile (st : Store) (userId : String) : HttpResp :=
  match findById st userId with
  | none => (404, errBody "User not found")
  | some u => (200, profileBody u)

/-- Fixed body of `logout`: `{success:true, message:"Logout successful"}`. -/
def logoutBody : Json :=
  .jobj [("success", .jbool true), ("message", .jstr "Logout successful")]

/-- The `logout` handler of `server/routes/auth.ts`: answers 200 with a
fixed body, ignoring headers and body and touching no stored state; the
store it returns is the one it was given. -/
def logout (st : Store) (_headers _body : Json) : HttpResp × Store :=
  ((200, logoutBody), st)

/-- One step of JavaScript `String.prototype.split(" ")` over the
character list of the header: splits at every single space, keeping
empty pieces. -/
def splitOnSpaceAux (cur : List Char) : List Char → List (List Char)
  | [] => [cur.reverse]
  | c :: cs =>
      if c = ' ' then cur.reverse :: splitOnSpaceAux [] cs
      else splitOnSpaceAux (c :: cur) cs

/-- `header.split(" ")`. The header is modelled as its character list so
the split is captured exactly (`"".split(" ") = [""]`,
`"a  b".split(" ") = ["a","","b"]`). -/
def jsSplitSpace (s : List Char) : List (List Char) :=
  splitOnSpaceAux [] s

/-- Token extraction of `server/middleware/auth.ts`:
`const token = authHeader && authHeader.split(" ")[1]`. The result is
falsy — no token — when the header is absent, when the split has no
second part, or when the second part is the empty string. No check of
the scheme word is made. -/
def extractToken (authHeader : Option (List Char)) : Option (List Char) :=
  match authHeader with
  | none => none
  | some h =>
      match (jsSplitSpace h)[1]? with
      | none => none
      | some t => if t.isEmpty then none else some t

/-- Outcome of the middleware: either a rejection response, or control
passed to the downstream handler with the decoded claims attached to
the request (`req.user = decoded; next()`). -/
inductive MwOutcome where
  | reject : Nat → Json → MwOutcome
  | proceed : JWTPayload → MwOutcome

/-- `authenticateToken` of `server/middleware/auth.ts`: no token → 401;
token present and `verifyToken` throws → 403; otherwise attach the
claims and continue. `decode` is the wire parser turning the extracted
header substring into the token the verifier sees. -/
def authenticateToken (decode : List Char → TokenWire) (now : Nat)
    (authHeader : Option (List Char)) : MwOutcome :=
  match extractToken authHeader with
  | none => .reject 401 (errBody "Access token required")
  | some tstr =>
      match verifyToken (decode tstr) now with
      | .ok p => .proceed p
      | .error _ => .reject 403 (errBody "Invalid or expired token")

/-- The protected route `GET /api/auth/profile` of `server/index.ts`:
`app.get("/api/auth/profile", authenticateToken, getProfile)` — the
handler runs only when the middleware proceeds, on the attached claims. -/
def profileRoute (decode : List Char → TokenWire) (now : Nat) (st : Store)
    (authHeader : Option (List Char)) : HttpResp :=
  match authenticateToken decode now authHeader with
  | .reject s b => (s, b)
  | .proceed p => getProfile st p.userId

/-- A concrete stand-in for the salted hash, used to instantiate the
universally quantified `hash` parameter in concrete witnesses. -/
def demoHash (s : String) : String := String.append "H#" s

/-- A demo store with one registered user, for concrete witnesses. -/
def demoStore : Store := [⟨"id1", "a@b.c", demoHash "pass123", "Al", 0⟩]

/-- C9: `logout` answers 200 `{success:true, message:"Logout successful"}`
whatever the headers and body are, and the store after the call is the
store before it: no user and no field is touched. -/
theorem claim_C9_logout_pure (st : Store) (headers body : Json) :
    logout st headers body =
      ((200, Json.jobj [("success", Json.jbool true),
                        ("message", Json.jstr "Logout successful")]), st)
    ∧ (logout st headers body).2 = st := by
  exact ⟨rfl, rfl⟩

/-- C4, counterexample: once the TTL has elapsed, the repository's
`verifyToken` does not fail with a distinct `TokenExpired` error — the
library reports `TokenExpiredError`, but the wrapper collapses it to the
same generic `"Invalid token"` a malformed token gets. -/
theorem claim_C4_counterexample :
    jwtVerifyLib (generateToken ⟨"u1", "a@b.c", "h", "Al", 0⟩ 0) JWT_SECRET
        JWT_EXPIRE_SECONDS = .error .tokenExpired
    ∧ verifyToken (generateToken ⟨"u1", "a@b.c", "h", "Al", 0⟩ 0)
        JWT_EXPIRE_SECONDS = .error "Invalid token"
    ∧ verifyToken (generateToken ⟨"u1", "a@b.c", "h", "Al", 0⟩ 0)
        JWT_EXPIRE_SECONDS = verifyToken .malformed JWT_EXPIRE_SECONDS := by
  exact ⟨rfl, rfl, rfl⟩

/-- C4, amended: `verifyToken (generateToken u t0) now` returns exactly
the claims `{userId := u.id, email := u.email, name := u.name}` embedded
at issuance as long as fewer than `JWT_EXPIRE_SECONDS` (7 days) have
elapsed, and once the TTL has elapsed it fails — with the generic error
`"Invalid token"`, not a distinct `TokenExpired`. -/
theorem claim_C4_issue_verify_roundtrip (u : StoredUser) (t0 now : Nat) :
    (now < t0 + JWT_EXPIRE_SECONDS →
      verifyToken (generateToken u t0) now = .ok ⟨u.id, u.email, u.name⟩)
    ∧ (t0 + JWT_EXPIRE_SECONDS ≤ now →
      verifyToken (generateToken u t0) now = .error "Invalid token") := by
  constructor
  · intro h
    simp [verifyToken, jwtVerifyLib, generateToken, jwtSign, Nat.not_le.mpr h]
  · intro h
    simp [verifyToken, jwtVerifyLib, generateToken, jwtSign, h]

theorem claim_C4_issue_verify_roundtrip_witness :
    verifyToken (generateToken ⟨"u1", "a@b.c", "h", "Al", 0⟩ 5) 5 =
      .ok ⟨"u1", "a@b.c", "Al"⟩
    ∧ verifyToken (generateToken ⟨"u1", "a@b.c", "h", "Al", 0⟩ 5) 604805 =
      .error "Invalid token" :=
  ⟨(claim_C4_issue_verify_roundtrip ⟨"u1", "a@b.c", "h", "Al", 0⟩ 5 5).1
      (by norm_num [JWT_EXPIRE_SECONDS]),
   (claim_C4_issue_verify_roundtrip ⟨"u1", "a@b.c", "h", "Al", 0⟩ 5 604805).2
      (by norm_num [JWT_EXPIRE_SECONDS])⟩

/-- C5, counterexample: the repository's token verification does not
distinguish its two failure causes. An expired token (which the
underlying library reports as `TokenExpiredError`) and a malformed token
(`JsonWebTokenError`) produce the identical error `"Invalid token"`. -/
theorem claim_C5_counterexample :
    verifyToken (.signed ⟨"u", "e", "n"⟩ 5 JWT_SECRET) 10 =
      .error "Invalid token"
    ∧ verifyToken .malformed 10 = .error "Invalid token"
    ∧ jwtVerifyLib (.signed ⟨"u", "e", "n"⟩ 5 JWT_SECRET) JWT_SECRET 10 =
      .error .tokenExpired
    ∧ jwtVerifyLib .malformed JWT_SECRET 10 = .error .jsonWebTokenError := by
  exact ⟨rfl, rfl, rfl, rfl⟩

/-- C5, amended: `verifyToken` succeeds exactly on a structurally
well-formed token signed with `JWT_SECRET` whose embedded expiry is
still in the future; every failure — bad signature, malformed structure,
or elapsed expiry alike — carries the single error `"Invalid token"`.
The underlying library does distinguish expiry (`TokenExpiredError`,
exactly when the token is well signed and its expiry has passed), but
the wrapper collapses the distinction. -/
theorem claim_C5_verify_failure_taxonomy (t : TokenWire) (now : Nat) :
    ((∃ p, verifyToken t now = .ok p) ↔
      ∃ p e, t = .signed p e JWT_SECRET ∧ now < e)
    ∧ (∀ msg, verifyToken t now = .error msg → msg = "Invalid token")
    ∧ (jwtVerifyLib t JWT_SECRET now = .error .tokenExpired ↔
      ∃ p e, t = .signed p e JWT_SECRET ∧ e ≤ now) := by
  rcases t with _ | ⟨p, e, s⟩
  · refine ⟨?_, ?_, ?_⟩
    · simp [verifyToken, jwtVerifyLib]
    · intro msg h
      simp [verifyToken, jwtVerifyLib] at h
      exact h.symm
    · simp [jwtVerifyLib]
  · by_cases hs : s = JWT_SECRET
    · subst hs
      by_cases he : e ≤ now
      · refine ⟨?_, ?_, ?_⟩
        · constructor
          · rintro ⟨p', h⟩
            simp [verifyToken, jwtVerifyLib, he] at h
          · rintro ⟨p', e', heq, hlt⟩
            injection heq with h1 h2 h3
            omega
        · intro msg h
          simp [verifyToken, jwtVerifyLib, he] at h
          exact h.symm
        · constructor
          · intro _
            exact ⟨p, e, rfl, he⟩
          · intro _
            simp [jwtVerifyLib, he]
      · refine ⟨?_, ?_, ?_⟩
        · constructor
          · intro _
            exact ⟨p, e, rfl, Nat.lt_of_not_le he⟩
          · intro _
            exact ⟨p, by simp [verifyToken, jwtVerifyLib, he]⟩
        · intro msg h
          simp [verifyToken, jwtVerifyLib, he] at h
        · constructor
          · intro h
            simp [jwtVerifyLib, he] at h
          · rintro ⟨p', e', heq, hle⟩
            injection heq with h1 h2 h3
            omega
    · refine ⟨?_, ?_, ?_⟩
      · simp [verifyToken, jwtVerifyLib, hs]
      · intro msg h
        simp [verifyToken, jwtVerifyLib, hs] at h
        exact h.symm
      · simp [jwtVerifyLib, hs]

theorem claim_C5_verify_failure_taxonomy_witness :
    (∃ p, verifyToken (.signed ⟨"u", "e", "n"⟩ 5 JWT_SECRET) 0 = .ok p)
    ∧ "Invalid token" = "Invalid token" :=
  ⟨(claim_C5_verify_failure_taxonomy (.signed ⟨"u", "e", "n"⟩ 5 JWT_SECRET)
      0).1.mpr ⟨⟨"u", "e", "n"⟩, 5, rfl, by norm_num⟩,
   (claim_C5_verify_failure_taxonomy .malformed 0).2.1 "Invalid token" rfl⟩

lemma splitOnSpaceAux_of_no_space (w : List Char) :
    ∀ acc : List Char, ' ' ∉ w → splitOnSpaceAux acc w = [acc.reverse ++ w] := by
  induction w with
  | nil => intro acc _; simp [splitOnSpaceAux]
  | cons c cs ih =>
      intro acc h
      have hc : c ≠ ' ' := fun hcc => h (hcc ▸ List.mem_cons_self c cs)
      have hcs : ' ' ∉ cs := fun hm => h (List.mem_cons_of_mem c hm)
      simp [splitOnSpaceAux, hc, ih (c :: acc) hcs]

lemma splitOnSpaceAux_append_space (w t : List Char) :
    ∀ acc : List Char, ' ' ∉ w →
      splitOnSpaceAux acc (w ++ ' ' :: t) =
        (acc.reverse ++ w) :: splitOnSpaceAux [] t := by
  induction w with
  | nil => intro acc _; simp [splitOnSpaceAux]
  | cons c cs ih =>
      intro acc h
      have hc : c ≠ ' ' := fun hcc => h (hcc ▸ List.mem_cons_self c cs)
      have hcs : ' ' ∉ cs := fun hm => h (List.mem_cons_of_mem c hm)
      simp [splitOnSpaceAux, hc, ih (c :: acc) hcs]

lemma jsSplitSpace_scheme_token (w t : List Char) (hw : ' ' ∉ w)
    (ht : ' ' ∉ t) : jsSplitSpace (w ++ ' ' :: t) = [w, t] := by
  simp [jsSplitSpace, splitOnSpaceAux_append_space w t [] hw,
    splitOnSpaceAux_of_no_space t [] ht]

lemma extractToken_scheme_token (w t : List Char) (hw : ' ' ∉ w)
    (ht : ' ' ∉ t) (htne : t ≠ []) :
    extractToken (some (w ++ ' ' :: t)) = some t := by
  have hne : t.isEmpty = false := by
    cases t with
    | nil => exact absurd rfl htne
    | cons a l => rfl
  simp [extractToken, jsSplitSpace_scheme_token w t hw ht, hne]

lemma extractToken_no_space (s : List Char) (hs : ' ' ∉ s) :
    extractToken (some s) = none := by
  simp [extractToken, jsSplitSpace, splitOnSpaceAux_of_no_space s [] hs]

/-- C2: the middleware is a pure gate. With no extractable token it
answers 401 without consulting the verifier (the outcome is the same for
every `decode` and every clock); with a token whose verification fails
it answers 403 and the profile handler never runs (the route's answer is
the rejection, whatever the store holds); with a verified token it
proceeds with the decoded claims attached, and the route runs
`getProfile` on them. -/
theorem claim_C2_middleware_gate (decode : List Char → TokenWire)
    (now : Nat) (header : Option (List Char)) :
    (extractToken header = none →
      ∀ (decode2 : List Char → TokenWire) (now2 : Nat),
        authenticateToken decode2 now2 header =
          .reject 401 (errBody "Access token required"))
    ∧ (∀ t, extractToken header = some t →
        (∀ msg, verifyToken (decode t) now = .error msg →
          authenticateToken decode now header =
            .reject 403 (errBody "Invalid or expired token")
          ∧ ∀ st : Store, profileRoute decode now st header =
              (403, errBody "Invalid or expired token"))
        ∧ (∀ p, verifyToken (decode t) now = .ok p →
            authenticateToken decode now header = .proceed p
            ∧ ∀ st : Store, profileRoute decode now st header =
                getProfile st p.userId)) := by
  constructor
  · intro h decode2 now2
    simp [authenticateToken, h]
  · intro t ht
    constructor
    · intro msg hv
      refine ⟨?_, ?_⟩
      · simp [authenticateToken, ht, hv]
      · intro st
        simp [profileRoute, authenticateToken, ht, hv]
    · intro p hv
      refine ⟨?_, ?_⟩
      · simp [authenticateToken, ht, hv]
      · intro st
        simp [profileRoute, authenticateToken, ht, hv]

theorem claim_C2_middleware_gate_witness :
    authenticateToken (fun _ => TokenWire.malformed) 7 none =
      .reject 401 (errBody "Access token required")
    ∧ authenticateToken (fun _ => TokenWire.malformed) 7
        (some ("Bearer x".toList)) =
      .reject 403 (errBody "Invalid or expired token")
    ∧ authenticateToken (fun _ => TokenWire.signed ⟨"id1", "a@b.c", "Al"⟩ 99
          JWT_SECRET) 7 (some ("Bearer x".toList)) =
      .proceed ⟨"id1", "a@b.c", "Al"⟩ :=
  ⟨(claim_C2_middleware_gate (fun _ => TokenWire.malformed) 7 none).1 rfl
      (fun _ => TokenWire.malformed) 7,
   (((claim_C2_middleware_gate (fun _ => TokenWire.malformed) 7
        (some ("Bearer x".toList))).2 ("x".toList) rfl).1 "Invalid token"
        rfl).1,
   (((claim_C2_middleware_gate
        (fun _ => TokenWire.signed ⟨"id1", "a@b.c", "Al"⟩ 99 JWT_SECRET) 7
        (some ("Bearer x".toList))).2 ("x".toList) rfl).2
        ⟨"id1", "a@b.c", "Al"⟩ (by simp [verifyToken, jwtVerifyLib])).1⟩

/-- C10: the middleware never checks the scheme word. Any header
`<word> <token>` — `"Basic <jwt>"` included — yields the second part as
the token and, when that token verifies, the request proceeds; any
header with no second space-separated part (a bare token or a lone
scheme word) yields no token at all and is rejected 401, not 403. -/
theorem claim_C10_no_scheme_check (decode : List Char → TokenWire)
    (now : Nat) (w t s : List Char) (hw : ' ' ∉ w) (ht : ' ' ∉ t)
    (htne : t ≠ []) (hs : ' ' ∉ s) :
    extractToken (some (w ++ ' ' :: t)) = some t
    ∧ (∀ p, verifyToken (decode t) now = .ok p →
        authenticateToken decode now (some (w ++ ' ' :: t)) = .proceed p)
    ∧ extractToken (some s) = none
    ∧ authenticateToken decode now (some s) =
        .reject 401 (errBody "Access token required") := by
  refine ⟨extractToken_scheme_token w t hw ht htne, ?_, ?_, ?_⟩
  · intro p hv
    simp [authenticateToken, extractToken_scheme_token w t hw ht htne, hv]
  · exact extractToken_no_space s hs
  · simp [authenticateToken, extractToken_no_space s hs]

theorem claim_C10_no_scheme_check_witness :
    extractToken (some ("Basic x".toList)) = some ("x".toList)
    ∧ authenticateToken
        (fun _ => TokenWire.signed ⟨"id1", "a@b.c", "Al"⟩ 99 JWT_SECRET) 7
        (some ("Basic x".toList)) = .proceed ⟨"id1", "a@b.c", "Al"⟩
    ∧ extractToken (some ("Bearer".toList)) = none
    ∧ authenticateToken
        (fun _ => TokenWire.signed ⟨"id1", "a@b.c", "Al"⟩ 99 JWT_SECRET) 7
        (some ("Bearer".toList)) =
        .reject 401 (errBody "Access token required") := by
  have h := claim_C10_no_scheme_check
      (fun _ => TokenWire.signed ⟨"id1", "a@b.c", "Al"⟩ 99 JWT_SECRET) 7
      ("Basic".toList) ("x".toList) ("Bearer".toList) (by decide) (by decide)
      (by decide) (by decide)
  exact ⟨h.1, h.2.1 ⟨"id1", "a@b.c", "Al"⟩ (by simp [verifyToken, jwtVerifyLib]),
    h.2.2.1, h.2.2.2⟩

lemma findOneByEmail_of_mem (st : Store) (e : String)
    (h : ∃ u ∈ st, u.email = e) : ∃ u, findOneByEmail st e = some u := by
  obtain ⟨u, hu, he⟩ := h
  have hsome : (st.find? (fun v => v.email == e)).isSome :=
    List.find?_isSome.mpr ⟨u, hu, by simp [he]⟩
  obtain ⟨v, hv⟩ := Option.isSome_iff_exists.mp hsome
  exact ⟨v, hv⟩

/-- C3: a login against an unknown email and a login against a known
email with a wrong password are indistinguishable: both answer exactly
400 `{success:false, message:"Invalid email or password"}`. -/
theorem claim_C3_login_indistinguishable (hash : String → String)
    (st : Store) (r1 r2 : LoginReq) (u : StoredUser) (now1 now2 : Nat)
    (h1e : present r1.email = true) (h1p : present r1.password = true)
    (h2e : present r2.email = true) (h2p : present r2.password = true)
    (h1 : findOneByEmail st (r1.email.getD "") = none)
    (h2 : findOneByEmail st (r2.email.getD "") = some u)
    (hw : hash (r2.password.getD "") ≠ u.password) :
    login hash st r1 now1 = login hash st r2 now2
    ∧ login hash st r1 now1 = (400, errBody "Invalid email or password") := by
  have hbeq : (hash (r2.password.getD "") == u.password) = false :=
    beq_eq_false_iff_ne.mpr hw
  constructor
  · simp [login, h1e, h1p, h2e, h2p, h1, h2, hbeq]
  · simp [login, h1e, h1p, h1]

theorem claim_C3_login_indistinguishable_witness :
    login demoHash demoStore ⟨some "z@b.c", some "pass123"⟩ 3 =
      login demoHash demoStore ⟨some "a@b.c", some "wrong99"⟩ 4
    ∧ login demoHash demoStore ⟨some "z@b.c", some "pass123"⟩ 3 =
      (400, errBody "Invalid email or password") :=
  claim_C3_login_indistinguishable demoHash demoStore
    ⟨some "z@b.c", some "pass123"⟩ ⟨some "a@b.c", some "wrong99"⟩
    ⟨"id1", "a@b.c", demoHash "pass123", "Al", 0⟩ 3 4
    rfl rfl rfl rfl rfl rfl (by decide)

/-- C6, counterexample: a register request whose email matches a stored
user but whose password field is absent is answered 400 with the
field-requiredness message, not with
`{success:false, message:"User with this email already exists"}` — the
presence check runs before the duplicate check. -/
theorem claim_C6_counterexample :
    (∃ u ∈ demoStore, u.email = "a@b.c")
    ∧ (register demoHash demoStore ⟨some "a@b.c", none, some "John"⟩
        "id2" 9).1 ≠ (400, errBody "User with this email already exists") := by
  constructor
  · exact ⟨⟨"id1", "a@b.c", demoHash "pass123", "Al", 0⟩, by simp [demoStore], rfl⟩
  · intro h
    exact absurd (congrArg (fun r : HttpResp => r.2.strings) h) (by decide)

/-- C6, amended: for every register request that passes the presence
check (email, password and name all present and non-empty) and whose
email equals the email of a user already in the store, the handler
answers 400 `{success:false, message:"User with this email already
exists"}` and the store is unchanged — no record is inserted. -/
theorem claim_C6_duplicate_email (hash : String → String) (st : Store)
    (req : RegisterReq) (newId : String) (now : Nat)
    (hp : (present req.email && present req.password && present req.name)
        = true)
    (hdup : ∃ u ∈ st, u.email = req.email.getD "") :
    register hash st req newId now =
      ((400, errBody "User with this email already exists"), st) := by
  obtain ⟨u, hu⟩ := findOneByEmail_of_mem st (req.email.getD "") hdup
  simp [register, hp, hu]

theorem claim_C6_duplicate_email_witness :
    register demoHash demoStore ⟨some "a@b.c", some "other77", some "John"⟩
      "id2" 9 =
      ((400, errBody "User with this email already exists"), demoStore) :=
  claim_C6_duplicate_email demoHash demoStore
    ⟨some "a@b.c", some "other77", some "John"⟩ "id2" 9 rfl
    ⟨⟨"id1", "a@b.c", demoHash "pass123", "Al", 0⟩, by simp [demoStore], rfl⟩

/-- C8: the profile handler looks the user up by the `userId` claim the
middleware attached: gone → 404 `{success:false, message:"User not
found"}`; present → 200 with exactly `{id, email, name, createdAt}`, the
stored password hash excluded (the observable strings of the success
body are exactly the id, email and name). The route runs `getProfile`
on the attached claims whenever the middleware proceeds. -/
theorem claim_C8_profile_lookup (st : Store) (uid : String) :
    (findById st uid = none →
      getProfile st uid = (404, errBody "User not found"))
    ∧ (∀ u, findById st uid = some u →
        getProfile st uid = (200, profileBody u)
        ∧ ((getProfile st uid).2).strings = [u.id, u.email, u.name])
    ∧ (∀ (decode : List Char → TokenWire) (now : Nat)
        (header : Option (List Char)) (p : JWTPayload) (st2 : Store),
        authenticateToken decode now header = .proceed p →
          profileRoute decode now st2 header = getProfile st2 p.userId) := by
  refine ⟨?_, ?_, ?_⟩
  · intro h
    simp [getProfile, h]
  · intro u h
    refine ⟨by simp [getProfile, h], ?_⟩
    simp [getProfile, h, profileBody, Json.strings, stringsOfFields,
      tokenStrings]
  · intro decode now header p st2 h
    simp [profileRoute, h]

theorem claim_C8_profile_lookup_witness :
    getProfile demoStore "zz" = (404, errBody "User not found")
    ∧ getProfile demoStore "id1" =
        (200, profileBody ⟨"id1", "a@b.c", demoHash "pass123", "Al", 0⟩)
    ∧ profileRoute
        (fun _ => TokenWire.signed ⟨"id1", "a@b.c", "Al"⟩ 99 JWT_SECRET) 7
        demoStore (some ("Bearer x".toList)) = getProfile demoStore "id1" :=
  ⟨(claim_C8_profile_lookup demoStore "zz").1 rfl,
   ((claim_C8_profile_lookup demoStore "id1").2.1
      ⟨"id1", "a@b.c", demoHash "pass123", "Al", 0⟩ rfl).1,
   (claim_C8_profile_lookup demoStore "id1").2.2
      (fun _ => TokenWire.signed ⟨"id1", "a@b.c", "Al"⟩ 99 JWT_SECRET) 7
      (some ("Bearer x".toList)) ⟨"id1", "a@b.c", "Al"⟩ demoStore rfl⟩

/-- C7: a register request with any of email, password, name absent or
empty is answered 400 `"Email, password, and name are required"` before
the store is consulted — the same response and an unchanged store for
every store whatsoever; and whenever register answers 201, the body is
the success envelope carrying a token signed with `JWT_SECRET` over
`{userId := newId, email, name}` and the public user fields
`{id := newId, email, name}`, with the new record appended. -/
theorem claim_C7_register_validation_and_success (hash : String → String)
    (st : Store) (req : RegisterReq) (newId : String) (now : Nat) :
    ((present req.email && present req.password && present req.name)
        = false →
      ∀ st2 : Store, register hash st2 req newId now =
        ((400, errBody "Email, password, and name are required"), st2))
    ∧ ((register hash st req newId now).1.1 = 201 →
      register hash st req newId now =
        ((201, registerSuccessBody
            (.signed ⟨newId, req.email.getD "", req.name.getD ""⟩
              (now + JWT_EXPIRE_SECONDS) JWT_SECRET)
            ⟨newId, req.email.getD "", hash (req.password.getD ""),
              req.name.getD "", now⟩),
          st ++ [⟨newId, req.email.getD "", hash (req.password.getD ""),
            req.name.getD "", now⟩])) := by
  constructor
  · intro h st2
    simp [register, h]
  · intro h201
    by_cases hp : (present req.email && present req.password
        && present req.name) = true
    · rcases hfind : findOneByEmail st (req.email.getD "") with _ | u
      · rcases hval : userValidationErrors (req.email.getD "")
            (req.password.getD "") (req.name.getD "") with _ | ⟨m, ms⟩
        · simp [register, hp, hfind, hval, generateToken, jwtSign]
        · exfalso
          simp [register, hp, hfind, hval] at h201
      · exfalso
        simp [register, hp, hfind] at h201
    · exfalso
      have hp' : (present req.email && present req.password
          && present req.name) = false := by
        simpa using hp
      simp [register, hp'] at h201

theorem claim_C7_register_validation_and_success_witness :
    register demoHash demoStore ⟨some "a@b.c", none, some "John"⟩ "id2" 9 =
      ((400, errBody "Email, password, and name are required"), demoStore)
    ∧ register demoHash [] ⟨some "jo@ex.com", some "pass123", some "John"⟩
        "id7" 11 =
      ((201, registerSuccessBody
          (.signed ⟨"id7", "jo@ex.com", "John"⟩ (11 + JWT_EXPIRE_SECONDS)
            JWT_SECRET)
          ⟨"id7", "jo@ex.com", demoHash "pass123", "John", 11⟩),
        [⟨"id7", "jo@ex.com", demoHash "pass123", "John", 11⟩]) :=
  ⟨(claim_C7_register_validation_and_success demoHash demoStore
      ⟨some "a@b.c", none, some "John"⟩ "id2" 9).1 rfl demoStore,
   (claim_C7_register_validation_and_success demoHash []
      ⟨some "jo@ex.com", some "pass123", some "John"⟩ "id7" 11).2 rfl⟩

/-- Every string the register / login / profile handlers can ever place
in a response body: the fixed envelope messages, the signing secret, the
freshly assigned id, the email and name of the register request, and the
ids, emails and names of stored users. No plaintext password and no
stored `password` hash is among the sources. -/
def exposable (st : Store) (req : RegisterReq) (newId : String) :
    List String :=
  ["Email, password, and name are required",
   "User with this email already exists",
   "User registered successfully",
   "Validation failed",
   "Please enter a valid email",
   "Password must be at least 6 characters",
   "Name must be at least 2 characters",
   "Email and password are required",
   "Invalid email or password",
   "Login successful",
   "User not found",
   JWT_SECRET, newId, req.email.getD "", req.name.getD ""] ++
  st.flatMap (fun u => [u.id, u.email, u.name])

lemma stringsOfList_map_jstr (l : List String) :
    stringsOfList (l.map Json.jstr) = l := by
  induction l with
  | nil => simp [stringsOfList]
  | cons a l ih => simp [stringsOfList, Json.strings, ih]

lemma userValidationErrors_mem (e p n : String) :
    ∀ m ∈ userValidationErrors e p n,
      m = "Please enter a valid email"
      ∨ m = "Password must be at least 6 characters"
      ∨ m = "Name must be at least 2 characters" := by
  intro m hm
  unfold userValidationErrors at hm
  rcases List.mem_append.1 hm with h | h
  · rcases List.mem_append.1 h with h2 | h2
    · split at h2 <;> simp_all
    · split at h2 <;> simp_all
  · split at h <;> simp_all

lemma mem_exposable_head (st : Store) (req : RegisterReq) (newId : String)
    (x : String)
    (h : x ∈ ["Email, password, and name are required",
      "User with this email already exists", "User registered successfully",
      "Validation failed", "Please enter a valid email",
      "Password must be at least 6 characters",
      "Name must be at least 2 characters", "Email and password are required",
      "Invalid email or password", "Login successful", "User not found",
      JWT_SECRET, newId, req.email.getD "", req.name.getD ""]) :
    x ∈ exposable st req newId :=
  List.mem_append_left _ h

lemma mem_exposable_of_store (st : Store) (req : RegisterReq)
    (newId : String) (u : StoredUser) (hu : u ∈ st) (x : String)
    (h : x = u.id ∨ x = u.email ∨ x = u.name) :
    x ∈ exposable st req newId :=
  List.mem_append_right _ (List.mem_flatMap.mpr
    ⟨u, hu, by rcases h with rfl | rfl | rfl <;> simp⟩)

lemma register_strings_exposable (hash : String → String) (st : Store)
    (req : RegisterReq) (newId : String) (now : Nat) :
    ∀ x ∈ ((register hash st req newId now).1.2).strings,
      x ∈ exposable st req newId := by
  intro x hx
  by_cases hp : (present req.email && present req.password
      && present req.name) = true
  · rcases hfind : findOneByEmail st (req.email.getD "") with _ | u
    · rcases hval : userValidationErrors (req.email.getD "")
          (req.password.getD "") (req.name.getD "") with _ | ⟨m, ms⟩
      · have hstr : ((register hash st req newId now).1.2).strings =
            ["User registered successfully", newId, req.email.getD "",
             req.name.getD "", JWT_SECRET, newId, req.email.getD "",
             req.name.getD ""] := by
          simp [register, hp, hfind, hval, registerSuccessBody,
            generateToken, jwtSign, Json.strings, stringsOfFields,
            tokenStrings]
        rw [hstr] at hx
        fin_cases hx <;> apply mem_exposable_head <;> simp
      · have hstr : ((register hash st req newId now).1.2).strings =
            "Validation failed" :: m :: ms := by
          simp [register, hp, hfind, hval, validationFailedBody,
            Json.strings, stringsOfFields, stringsOfList,
            stringsOfList_map_jstr]
        rw [hstr] at hx
        rcases List.mem_cons.1 hx with rfl | hx2
        · apply mem_exposable_head; simp
        · have := userValidationErrors_mem (req.email.getD "")
            (req.password.getD "") (req.name.getD "") x (hval ▸ hx2)
          rcases this with rfl | rfl | rfl <;>
            apply mem_exposable_head <;> simp
    · have hstr : ((register hash st req newId now).1.2).strings =
          ["User with this email already exists"] := by
        simp [register, hp, hfind, errBody, Json.strings, stringsOfFields]
      rw [hstr] at hx
      fin_cases hx
      apply mem_exposable_head; simp
  · have hp2 : (present req.email && present req.password
        && present req.name) = false := by simpa using hp
    have hstr : ((register hash st req newId now).1.2).strings =
        ["Email, password, and name are required"] := by
      simp [register, hp2, errBody, Json.strings, stringsOfFields]
    rw [hstr] at hx
    fin_cases hx
    apply mem_exposable_head; simp

lemma login_strings_exposable (hash : String → String) (st : Store)
    (lreq : LoginReq) (now : Nat) (req : RegisterReq) (newId : String) :
    ∀ x ∈ ((login hash st lreq now).2).strings,
      x ∈ exposable st req newId := by
  intro x hx
  by_cases hp : (present lreq.email && present lreq.password) = true
  · rcases hfind : findOneByEmail st (lreq.email.getD "") with _ | u
    · have hstr : ((login hash st lreq now).2).strings =
          ["Invalid email or password"] := by
        simp [login, hp, hfind, errBody, Json.strings, stringsOfFields]
      rw [hstr] at hx
      fin_cases hx
      apply mem_exposable_head; simp
    · have hu : u ∈ st := List.mem_of_find?_eq_some hfind
      by_cases hpw : (hash (lreq.password.getD "") == u.password) = true
      · have hstr : ((login hash st lreq now).2).strings =
            ["Login successful", u.id, u.email, u.name, JWT_SECRET,
             u.id, u.email, u.name] := by
          simp [login, hp, hfind, hpw, loginSuccessBody, generateToken,
            jwtSign, Json.strings, stringsOfFields, tokenStrings]
        rw [hstr] at hx
        fin_cases hx
        · apply mem_exposable_head; simp
        · exact mem_exposable_of_store st req newId u hu _ (Or.inl rfl)
        · exact mem_exposable_of_store st req newId u hu _
            (Or.inr (Or.inl rfl))
        · exact mem_exposable_of_store st req newId u hu _
            (Or.inr (Or.inr rfl))
        · apply mem_exposable_head; simp
        · exact mem_exposable_of_store st req newId u hu _ (Or.inl rfl)
        · exact mem_exposable_of_store st req newId u hu _
            (Or.inr (Or.inl rfl))
        · exact mem_exposable_of_store st req newId u hu _
            (Or.inr (Or.inr rfl))
      · have hpw2 : (hash (lreq.password.getD "") == u.password) = false := by
          simpa using hpw
        have hstr : ((login hash st lreq now).2).strings =
            ["Invalid email or password"] := by
          simp [login, hp, hfind, hpw2, errBody, Json.strings,
            stringsOfFields]
        rw [hstr] at hx
        fin_cases hx
        apply mem_exposable_head; simp
  · have hp2 : (present lreq.email && present lreq.password) = false := by
      simpa using hp
    have hstr : ((login hash st lreq now).2).strings =
        ["Email and password are required"] := by
      simp [login, hp2, errBody, Json.strings, stringsOfFields]
    rw [hstr] at hx
    fin_cases hx
    apply mem_exposable_head; simp

lemma getProfile_strings_exposable (st : Store) (uid : String)
    (req : RegisterReq) (newId : String) :
    ∀ x ∈ ((getProfile st uid).2).strings, x ∈ exposable st req newId := by
  intro x hx
  rcases hfind : findById st uid with _ | u
  · have hstr : ((getProfile st uid).2).strings = ["User not found"] := by
      simp [getProfile, hfind, errBody, Json.strings, stringsOfFields]
    rw [hstr] at hx
    fin_cases hx
    apply mem_exposable_head; simp
  · have hu : u ∈ st := List.mem_of_find?_eq_some hfind
    have hstr : ((getProfile st uid).2).strings =
        [u.id, u.email, u.name] := by
      simp [getProfile, hfind, profileBody, Json.strings, stringsOfFields]
    rw [hstr] at hx
    fin_cases hx
    · exact mem_exposable_of_store st req newId u hu _ (Or.inl rfl)
    · exact mem_exposable_of_store st req newId u hu _
        (Or.inr (Or.inl rfl))
    · exact mem_exposable_of_store st req newId u hu _
        (Or.inr (Or.inr rfl))

/-- C1: no response of `register`, `login` or `getProfile` — success or
failure — contains the plaintext password or the stored password hash.
Formally: any string `s` that is not among the legitimately exposable
sources (the fixed messages, the signing secret, the new id, the
register request's email and name, and the stored ids/emails/names)
never occurs in a response body; in particular neither a submitted
plaintext password nor a stored `password` hash does, whenever it does
not coincide with one of those public fields. The token embeds only
`{userId, email, name}`, and the profile projection drops `password`. -/
theorem claim_C1_no_password_in_responses (hash : String → String)
    (st : Store) (rreq : RegisterReq) (lreq : LoginReq)
    (newId uid : String) (now : Nat) (s : String)
    (hs : s ∉ exposable st rreq newId) :
    s ∉ ((register hash st rreq newId now).1.2).strings
    ∧ s ∉ ((login hash st lreq now).2).strings
    ∧ s ∉ ((getProfile st uid).2).strings :=
  ⟨fun hmem => hs (register_strings_exposable hash st rreq newId now s hmem),
   fun hmem => hs (login_strings_exposable hash st lreq now rreq newId s hmem),
   fun hmem => hs (getProfile_strings_exposable st uid rreq newId s hmem)⟩

theorem claim_C1_no_password_in_responses_witness :
    demoHash "pass123" ∉
      ((register demoHash demoStore
          ⟨some "jo@ex.com", some "pass123", some "John"⟩ "id7" 11).1.2).strings
    ∧ demoHash "pass123" ∉
      ((login demoHash demoStore ⟨some "a@b.c", some "pass123"⟩ 11).2).strings
    ∧ demoHash "pass123" ∉ ((getProfile demoStore "id1").2).strings :=
  claim_C1_no_password_in_responses demoHash demoStore
    ⟨some "jo@ex.com", some "pass123", some "John"⟩
    ⟨some "a@b.c", some "pass123"⟩ "id7" "id1" 11 (demoHash "pass123")
    (by decide)
